import Mathlib

/-!
Verification of the authentication and API layer of the FaziSimpleSavings
Angular front-end (`src/app/core/services/auth.service.ts`, which also holds
`ApiService`).

The embedding models the JavaScript runtime pieces the service leans on:
`atob` (WHATWG forgiving base64), `JSON.parse` (full JSON grammar; numbers are
kept as their lexemes, since no claim compares numeric values), property
access on parsed values (`payload.sub` on `null` throws, on non-objects yields
`undefined`; prototype-chain members are out of scope of a JSON data model),
and `String.prototype.split`.  Exceptions are modelled with `Option`: `none`
is a thrown exception, and the `try/catch` of `decodeUserFromToken` becomes a
`getD` on that `Option`.

All recursive functions are written with structural recursion (fuel for the
JSON grammar) so that every definition evaluates inside the kernel.
-/

/-- A JavaScript value as far as this code can observe one: the result of
`JSON.parse` extended with `undefined` (missing properties, missing response
fields).  Numbers are kept as their source lexemes. -/
inductive JsValue where
  | undefined
  | null
  | bool (b : Bool)
  | num (lexeme : String)
  | str (s : String)
  | arr (items : List JsValue)
  | obj (fields : List (String × JsValue))

/-! ### atob: WHATWG forgiving-base64 decode -/

/-- ASCII whitespace, removed by forgiving-base64 before decoding. -/
def isAsciiWs (c : Char) : Bool :=
  c == ' ' || c == '\t' || c == '\n' || c == '\r' || c == Char.ofNat 12

/-- Value of one base64 alphabet character; `none` for anything else. -/
def b64Val (c : Char) : Option Nat :=
  if 'A' ≤ c ∧ c ≤ 'Z' then some (c.toNat - 'A'.toNat)
  else if 'a' ≤ c ∧ c ≤ 'z' then some (c.toNat - 'a'.toNat + 26)
  else if '0' ≤ c ∧ c ≤ '9' then some (c.toNat - '0'.toNat + 52)
  else if c = '+' then some 62
  else if c = '/' then some 63
  else none

/-- Map every character to its sextet; fail on the first invalid one. -/
def b64Sextets : List Char → Option (List Nat)
  | [] => some []
  | c :: rest =>
    match b64Val c, b64Sextets rest with
    | some v, some vs => some (v :: vs)
    | _, _ => none

/-- Reassemble bytes from sextets, four at a time; a final chunk of two or
three sextets yields one or two bytes (spare low bits are discarded, as in
forgiving-base64); a final chunk of one sextet is an error. -/
def b64Bytes : List Nat → Option (List Nat)
  | [] => some []
  | [_] => none
  | [a, b] => some [a * 4 + b / 16]
  | [a, b, c] => some [a * 4 + b / 16, (b % 16) * 16 + c / 4]
  | a :: b :: c :: d :: rest =>
    match b64Bytes rest with
    | some bs => some ((a * 4 + b / 16) :: ((b % 16) * 16 + c / 4) :: ((c % 4) * 64 + d) :: bs)
    | none => none

/-- Drop one or two trailing padding characters, but only when the length is a
multiple of four. -/
def b64StripPad (cs : List Char) : List Char :=
  if cs.length % 4 == 0 then
    match cs.reverse with
    | '=' :: '=' :: rest => rest.reverse
    | '=' :: rest => rest.reverse
    | _ => cs
  else cs

/-- The browser's `atob`: forgiving-base64 decode, producing one character per
decoded byte (codepoints 0 to 255).  `none` models the thrown
`InvalidCharacterError`. -/
def atob (s : String) : Option String :=
  let cs := s.data.filter (fun c => !isAsciiWs c)
  let cs := b64StripPad cs
  if cs.length % 4 == 1 then none
  else
    match b64Sextets cs with
    | none => none
    | some vs =>
      match b64Bytes vs with
      | none => none
      | some bs => some (String.mk (bs.map Char.ofNat))

/-! ### JSON.parse -/

/-- The whitespace `JSON.parse` skips between tokens. -/
def isJsonWs (c : Char) : Bool :=
  c == ' ' || c == '\t' || c == '\n' || c == '\r'

def skipJsonWs : List Char → List Char
  | [] => []
  | c :: rest => if isJsonWs c then skipJsonWs rest else c :: rest

def isDigitCh (c : Char) : Bool := '0' ≤ c && c ≤ '9'

def hexDigitVal (c : Char) : Option Nat :=
  if '0' ≤ c ∧ c ≤ '9' then some (c.toNat - '0'.toNat)
  else if 'a' ≤ c ∧ c ≤ 'f' then some (c.toNat - 'a'.toNat + 10)
  else if 'A' ≤ c ∧ c ≤ 'F' then some (c.toNat - 'A'.toNat + 10)
  else none

def hexQuad (a b c d : Char) : Option Nat :=
  match hexDigitVal a, hexDigitVal b, hexDigitVal c, hexDigitVal d with
  | some va, some vb, some vc, some vd => some (((va * 16 + vb) * 16 + vc) * 16 + vd)
  | _, _, _, _ => none

/-- Single-character escapes of the JSON string grammar. -/
def jsonEscape : Char → Option Char
  | '"' => some '"'
  | '\\' => some '\\'
  | '/' => some '/'
  | 'b' => some (Char.ofNat 8)
  | 'f' => some (Char.ofNat 12)
  | 'n' => some '\n'
  | 'r' => some '\r'
  | 't' => some '\t'
  | _ => none

/-- Body of a JSON string after its opening quote.  Rejects raw control
characters; decodes escapes; combines surrogate pairs from `\uXXXX` escapes
(a lone surrogate, which Lean characters cannot carry, is replaced by
U+FFFD — no claim exercises that corner).  Structural on fuel; every step
consumes at least one character, so `length + 1` fuel always suffices. -/
def jsonStrBody : Nat → List Char → List Char → Option (String × List Char)
  | 0, _, _ => none
  | Nat.succ fuel, acc, cs =>
    match cs with
    | '"' :: rest => some (String.mk acc.reverse, rest)
    | '\\' :: 'u' :: a :: b :: c :: d :: rest =>
      (match hexQuad a b c d with
       | none => none
       | some n =>
         if 0xD800 ≤ n ∧ n ≤ 0xDBFF then
           match rest with
           | '\\' :: 'u' :: e :: f :: g :: h :: rest2 =>
             (match hexQuad e f g h with
              | some m =>
                if 0xDC00 ≤ m ∧ m ≤ 0xDFFF then
                  jsonStrBody fuel
                    (Char.ofNat (0x10000 + (n - 0xD800) * 0x400 + (m - 0xDC00)) :: acc) rest2
                else jsonStrBody fuel (Char.ofNat 0xFFFD :: acc) rest
              | none => jsonStrBody fuel (Char.ofNat 0xFFFD :: acc) rest)
           | _ => jsonStrBody fuel (Char.ofNat 0xFFFD :: acc) rest
         else if 0xDC00 ≤ n ∧ n ≤ 0xDFFF then jsonStrBody fuel (Char.ofNat 0xFFFD :: acc) rest
         else jsonStrBody fuel (Char.ofNat n :: acc) rest)
    | '\\' :: e :: rest =>
      (match jsonEscape e with
       | some ch => jsonStrBody fuel (ch :: acc) rest
       | none => none)
    | c :: rest => if c.toNat < 0x20 then none else jsonStrBody fuel (c :: acc) rest
    | [] => none

/-- Parse a JSON string body with enough fuel for its input. -/
def jsonStrParse (cs : List Char) : Option (String × List Char) :=
  jsonStrBody (cs.length + 1) [] cs

/-- Longest prefix of decimal digits. -/
def takeDigitsCh : List Char → List Char × List Char
  | [] => ([], [])
  | c :: rest =>
    if isDigitCh c then
      let (ds, r) := takeDigitsCh rest
      (c :: ds, r)
    else ([], c :: rest)

/-- A number per the strict JSON grammar, returned as its lexeme
(`-? (0 | [1-9][0-9]*) (. [0-9]+)? ([eE][+-]? [0-9]+)?`). -/
def jsonNumLexeme (cs : List Char) : Option (String × List Char) :=
  let (sign, cs1) : List Char × List Char :=
    match cs with
    | '-' :: r => (['-'], r)
    | _ => ([], cs)
  match cs1 with
  | [] => none
  | c :: r =>
    if !isDigitCh c then none
    else
      let (intPart, cs2) : List Char × List Char :=
        if c = '0' then (['0'], r)
        else
          let (ds, r2) := takeDigitsCh r
          (c :: ds, r2)
      let fracRes : Option (List Char × List Char) :=
        match cs2 with
        | '.' :: r3 =>
          let (ds, r4) := takeDigitsCh r3
          if ds.isEmpty then none else some ('.' :: ds, r4)
        | _ => some ([], cs2)
      match fracRes with
      | none => none
      | some (fracPart, cs3) =>
        let expRes : Option (List Char × List Char) :=
          match cs3 with
          | 'e' :: r5 | 'E' :: r5 =>
            let (sgn, r6) : List Char × List Char :=
              match r5 with
              | '+' :: r7 => (['+'], r7)
              | '-' :: r7 => (['-'], r7)
              | _ => ([], r5)
            let (ds, r8) := takeDigitsCh r6
            if ds.isEmpty then none
            else some ((match cs3 with | 'E' :: _ => 'E' | _ => 'e') :: sgn ++ ds, r8)
          | _ => some ([], cs3)
        match expRes with
        | none => none
        | some (expPart, cs4) =>
          some (String.mk (sign ++ intPart ++ fracPart ++ expPart), cs4)

/-- Opening and closing brace characters, named so they can be compared
without brace literals. -/
def lbraceCh : Char := Char.ofNat 123

def rbraceCh : Char := Char.ofNat 125

/-- What the recursive JSON parser is asked to parse next. -/
inductive PMode where
  | value
  | elements
  | members

/-- The matching results. -/
inductive POut where
  | value (v : JsValue)
  | elements (vs : List JsValue)
  | members (ms : List (String × JsValue))

/-- The JSON grammar, one function structurally recursive on fuel so that it
both terminates and evaluates in the kernel.  `elements` and `members` parse
the non-empty comma-separated interiors of arrays and objects. -/
def jsonParseF : Nat → PMode → List Char → Option (POut × List Char)
  | 0, _, _ => none
  | Nat.succ fuel, PMode.value, cs =>
    (match skipJsonWs cs with
     | 'n' :: 'u' :: 'l' :: 'l' :: r => some (POut.value JsValue.null, r)
     | 't' :: 'r' :: 'u' :: 'e' :: r => some (POut.value (JsValue.bool true), r)
     | 'f' :: 'a' :: 'l' :: 's' :: 'e' :: r => some (POut.value (JsValue.bool false), r)
     | '"' :: r =>
       (match jsonStrParse r with
        | some (s, r2) => some (POut.value (JsValue.str s), r2)
        | none => none)
     | '[' :: r =>
       (match skipJsonWs r with
        | ']' :: r2 => some (POut.value (JsValue.arr []), r2)
        | r2 =>
          match jsonParseF fuel PMode.elements r2 with
          | some (POut.elements vs, r3) => some (POut.value (JsValue.arr vs), r3)
          | _ => none)
     | c :: r =>
       if c = lbraceCh then
         match skipJsonWs r with
         | c2 :: r2 =>
           if c2 = rbraceCh then some (POut.value (JsValue.obj []), r2)
           else
             (match jsonParseF fuel PMode.members (c2 :: r2) with
              | some (POut.members ms, r3) => some (POut.value (JsValue.obj ms), r3)
              | _ => none)
         | [] => none
       else if c = '-' ∨ isDigitCh c then
         match jsonNumLexeme (c :: r) with
         | some (lex, r2) => some (POut.value (JsValue.num lex), r2)
         | none => none
       else none
     | [] => none)
  | Nat.succ fuel, PMode.elements, cs =>
    (match jsonParseF fuel PMode.value cs with
     | some (POut.value v, r) =>
       (match skipJsonWs r with
        | ',' :: r2 =>
          (match jsonParseF fuel PMode.elements r2 with
           | some (POut.elements vs, r3) => some (POut.elements (v :: vs), r3)
           | _ => none)
        | ']' :: r2 => some (POut.elements [v], r2)
        | _ => none)
     | _ => none)
  | Nat.succ fuel, PMode.members, cs =>
    (match skipJsonWs cs with
     | '"' :: r =>
       (match jsonStrParse r with
        | some (key, r1) =>
          (match skipJsonWs r1 with
           | ':' :: r2 =>
             (match jsonParseF fuel PMode.value r2 with
              | some (POut.value v, r3) =>
                (match skipJsonWs r3 with
                 | ',' :: r4 =>
                   (match jsonParseF fuel PMode.members r4 with
                    | some (POut.members ms, r5) => some (POut.members ((key, v) :: ms), r5)
                    | _ => none)
                 | c :: r4 => if c = rbraceCh then some (POut.members [(key, v)], r4) else none
                 | [] => none)
              | _ => none)
           | _ => none)
        | none => none)
     | _ => none)

/-- `JSON.parse`: parse one value and require only whitespace after it.
`none` models the thrown `SyntaxError`. -/
def jsonParse (s : String) : Option JsValue :=
  match jsonParseF (2 * s.data.length + 2) PMode.value s.data with
  | some (POut.value v, rest) => if (skipJsonWs rest).isEmpty then some v else none
  | _ => none

/-! ### The data model of `auth.service.ts` -/

/-- `User` from `auth.service.ts`: three claims copied out of the decoded JWT
payload.  Fields carry whatever JavaScript value the property access produced
(the TypeScript annotation says `string`, but nothing enforces it at
runtime). -/
structure User where
  id : JsValue
  email : JsValue
  name : JsValue

/-- `LoginDto` from `auth.service.ts`. -/
structure LoginDto where
  email : String
  password : String

/-- The fallback user built in the `catch` branch of `decodeUserFromToken`. -/
def fallbackUser : User :=
  { id := JsValue.str "", email := JsValue.str "", name := JsValue.str "" }

/-! ### Property access and string coercion on JavaScript values -/

/-- Own-property lookup on a parsed object: with duplicate keys the later one
wins (as in a JavaScript object literal); a missing key is `undefined`. -/
def jsGetField (fields : List (String × JsValue)) (key : String) : JsValue :=
  match fields.reverse.find? (fun p => p.1 == key) with
  | some p => p.2
  | none => JsValue.undefined

/-- `v.key` for a parsed value `v`: throws (`none`) on `null` and `undefined`;
on an object looks the key up; on any other value yields `undefined`
(prototype-chain members of primitives are outside this JSON data model). -/
def jsGet : JsValue → String → Option JsValue
  | JsValue.undefined, _ => none
  | JsValue.null, _ => none
  | JsValue.obj fields, key => some (jsGetField fields key)
  | _, _ => some JsValue.undefined

/-- String coercion of a value, as a template literal performs it.  Structural
on fuel (arrays recurse into their items; `displayFuel` below always provides
enough). -/
def jsDisplayF : Nat → JsValue → String
  | 0, _ => ""
  | Nat.succ fuel, v =>
    match v with
    | JsValue.undefined => "undefined"
    | JsValue.null => "null"
    | JsValue.bool b => cond b "true" "false"
    | JsValue.num lexeme => lexeme
    | JsValue.str s => s
    | JsValue.obj _ => "[object Object]"
    | JsValue.arr items =>
      String.intercalate ","
        (items.map (fun x =>
          match x with
          | JsValue.undefined => ""
          | JsValue.null => ""
          | y => jsDisplayF fuel y))

mutual

/-- A size measure on values that strictly dominates nesting depth, used only
to hand `jsDisplayF` enough fuel. -/
def jsSize : JsValue → Nat
  | JsValue.arr items => 1 + jsSizeList items
  | _ => 1

def jsSizeList : List JsValue → Nat
  | [] => 0
  | v :: rest => jsSize v + jsSizeList rest + 1

end

/-- String coercion of a value, fuelled by its size. -/
def jsDisplay (v : JsValue) : String := jsDisplayF (jsSize v) v

/-! ### decodeUserFromToken -/

/-- `token.split('.')`, matching JavaScript `String.prototype.split` with a
one-character separator (`''.split('.')` is `['']`, and separators at the
edges produce empty segments). -/
def splitOnDot : List Char → List (List Char)
  | [] => [[]]
  | c :: rest =>
    if c = '.' then [] :: splitOnDot rest
    else
      match splitOnDot rest with
      | seg :: segs => (c :: seg) :: segs
      | [] => [[c]]

/-- `token.split('.')[1]`: `none` is JavaScript `undefined` (fewer than two
segments). -/
def secondSegment (token : String) : Option String :=
  ((splitOnDot token.data).get? 1).map (fun cs => String.mk cs)

/-- The string `atob` actually receives: when the index is out of range the
`undefined` argument is coerced to the string `"undefined"`. -/
def atobArg (token : String) : String :=
  match secondSegment token with
  | some seg => seg
  | none => "undefined"

/-- `JSON.parse(atob(token.split('.')[1]))`: `none` when either step throws. -/
def decodePayload (token : String) : Option JsValue :=
  match atob (atobArg token) with
  | none => none
  | some decoded => jsonParse decoded

/-- The body of the `try` block of `decodeUserFromToken`: `none` is an
exception reaching the `catch` (decode or parse failure, or property access
on a `null` payload). -/
def decodeUserFromTokenE (token : String) : Option User :=
  match decodePayload token with
  | none => none
  | some payload =>
    match jsGet payload "sub", jsGet payload "email", jsGet payload "name" with
    | some i, some e, some n => some { id := i, email := e, name := n }
    | _, _, _ => none

/-- `AuthService.decodeUserFromToken`: the `try` body, with the `catch`
returning the empty-string fallback user. -/
def decodeUserFromToken (token : String) : User :=
  (decodeUserFromTokenE token).getD fallbackUser

/-! ### The observable state of `AuthService` -/

/-- Everything `AuthService` can touch: the `_user` signal, the
`loginSuccessMessage` signal, the `localStorage` key `'token'` (the only key
the code uses), the router's current url, and the console log. -/
structure AuthState where
  user : Option User
  loginSuccessMessage : Option String
  storedToken : Option String
  route : String
  log : List String

/-- The `isLoggedIn` computed signal: `!!this._user()`. -/
def isLoggedIn (s : AuthState) : Bool := s.user.isSome

/-- How the `login` subscription is woken: a response, or an HTTP error. -/
structure LoginResponse where
  data : Option String

inductive LoginEvent where
  | response (res : LoginResponse)
  | httpError

/-- The `subscribe` handlers of `AuthService.login`: on error, log only; on a
response, a falsy `res.data` (absent or empty) logs and returns, otherwise the
token is persisted, decoded (logging if decoding fell back), the user and
welcome message signals are set and the router navigates to `'/'`. -/
def loginStep (ev : LoginEvent) (s : AuthState) : AuthState :=
  match ev with
  | LoginEvent.httpError => { s with log := s.log ++ ["Login failed"] }
  | LoginEvent.response res =>
    match res.data with
    | none => { s with log := s.log ++ ["Login response did not include token."] }
    | some token =>
      if token = "" then { s with log := s.log ++ ["Login response did not include token."] }
      else
        { s with
          storedToken := some token
          log := s.log ++
            (if (decodeUserFromTokenE token).isNone then ["Failed to decode JWT"] else [])
          user := some (decodeUserFromToken token)
          loginSuccessMessage :=
            some ("Welcome back, " ++ jsDisplay (decodeUserFromToken token).name ++ "!")
          route := "/" }

/-- `AuthService.logout`. -/
def logout (s : AuthState) : AuthState :=
  { s with
    user := none
    loginSuccessMessage := none
    storedToken := none
    route := "/auth/login" }

/-- `AuthService.restoreUser`: a falsy stored token (absent, or the empty
string) returns early; otherwise the token is decoded (logging if decoding
fell back) and the user signal set. -/
def restoreUser (s : AuthState) : AuthState :=
  match s.storedToken with
  | none => s
  | some token =>
    if token = "" then s
    else
      { s with
        user := some (decodeUserFromToken token)
        log := s.log ++
          (if (decodeUserFromTokenE token).isNone then ["Failed to decode JWT"] else []) }

/-- The service constructor: fresh signals (`null` user, `null` message), then
`restoreUser()` against whatever storage and route the browser starts with. -/
def startup (storage : Option String) (route : String) : AuthState :=
  restoreUser
    { user := none, loginSuccessMessage := none, storedToken := storage,
      route := route, log := [] }

/-- A concrete state to instantiate theorems at. -/
def initState : AuthState :=
  { user := none, loginSuccessMessage := none, storedToken := none,
    route := "/", log := [] }

/-! ### ApiService -/

inductive HttpMethod where
  | get
  | post
  | put
  | delete
deriving DecidableEq

/-- An outgoing HTTP request, parametric in the body type (the TypeScript body
parameter is `any`; parametricity is precisely "passed through unchanged"). -/
structure Request (α : Type) where
  method : HttpMethod
  url : String
  body : Option α

/-- `ApiService.baseUrl`. -/
def apiBaseUrl : String := "https://localhost:7000"

def ApiService.get (α : Type) (url : String) : Request α :=
  { method := HttpMethod.get, url := apiBaseUrl ++ url, body := none }

def ApiService.post (α : Type) (url : String) (body : α) : Request α :=
  { method := HttpMethod.post, url := apiBaseUrl ++ url, body := some body }

def ApiService.put (α : Type) (url : String) (body : α) : Request α :=
  { method := HttpMethod.put, url := apiBaseUrl ++ url, body := some body }

def ApiService.delete (α : Type) (url : String) : Request α :=
  { method := HttpMethod.delete, url := apiBaseUrl ++ url, body := none }

/-- The request `AuthService.login` hands to `ApiService`:
`this.api.post<any>('/api/auth/login', credentials)`. -/
def loginRequest (credentials : LoginDto) : Request LoginDto :=
  ApiService.post LoginDto "/api/auth/login" credentials

/-! ### The claims -/

/-- C1: `decodeUserFromToken` is total — never throwing is modelled by it
being a function into `User` — and on every input it either falls back to the
empty-string user (in particular whenever the split/decode/parse pipeline
fails) or copies exactly the three property accesses on the parsed payload. -/
theorem decodeUserFromToken_never_throws (token : String) :
    (decodePayload token = none → decodeUserFromToken token = fallbackUser) ∧
    (decodeUserFromToken token = fallbackUser ∨
      ∃ p i e n, decodePayload token = some p ∧
        jsGet p "sub" = some i ∧ jsGet p "email" = some e ∧ jsGet p "name" = some n ∧
        decodeUserFromToken token = { id := i, email := e, name := n }) := by
  constructor
  · intro h
    simp [decodeUserFromToken, decodeUserFromTokenE, h]
  · cases hp : decodePayload token with
    | none => exact Or.inl (by simp [decodeUserFromToken, decodeUserFromTokenE, hp])
    | some p =>
      cases p with
      | undefined =>
        exact Or.inl (by simp [decodeUserFromToken, decodeUserFromTokenE, hp, jsGet])
      | null =>
        exact Or.inl (by simp [decodeUserFromToken, decodeUserFromTokenE, hp, jsGet])
      | bool b =>
        exact Or.inr ⟨JsValue.bool b, JsValue.undefined, JsValue.undefined, JsValue.undefined,
          rfl, rfl, rfl, rfl, by simp [decodeUserFromToken, decodeUserFromTokenE, hp, jsGet]⟩
      | num lexeme =>
        exact Or.inr ⟨JsValue.num lexeme, JsValue.undefined, JsValue.undefined,
          JsValue.undefined, rfl, rfl, rfl, rfl,
          by simp [decodeUserFromToken, decodeUserFromTokenE, hp, jsGet]⟩
      | str s =>
        exact Or.inr ⟨JsValue.str s, JsValue.undefined, JsValue.undefined, JsValue.undefined,
          rfl, rfl, rfl, rfl, by simp [decodeUserFromToken, decodeUserFromTokenE, hp, jsGet]⟩
      | arr items =>
        exact Or.inr ⟨JsValue.arr items, JsValue.undefined, JsValue.undefined,
          JsValue.undefined, rfl, rfl, rfl, rfl,
          by simp [decodeUserFromToken, decodeUserFromTokenE, hp, jsGet]⟩
      | obj fields =>
        exact Or.inr ⟨JsValue.obj fields, jsGetField fields "sub", jsGetField fields "email",
          jsGetField fields "name", rfl, rfl, rfl, rfl,
          by simp [decodeUserFromToken, decodeUserFromTokenE, hp, jsGet]⟩

/-- C1 witness: a token with no second segment falls back without throwing. -/
theorem decodeUserFromToken_never_throws_witness :
    decodeUserFromToken "x" = fallbackUser :=
  (decodeUserFromToken_never_throws "x").1 rfl

/-- C5: on a token whose second dot-segment is valid base64 of JSON object
text, `decodeUserFromToken` returns exactly the payload's `sub`, `email` and
`name` properties; and the result depends on nothing but that second segment
(no signature verification — the other segments are never read — and no
expiry check — only the three listed properties are read). -/
theorem decodeUserFromToken_wellFormed (token seg decoded : String)
    (fields : List (String × JsValue))
    (hseg : secondSegment token = some seg)
    (hb64 : atob seg = some decoded)
    (hjson : jsonParse decoded = some (JsValue.obj fields)) :
    decodeUserFromToken token =
      { id := jsGetField fields "sub", email := jsGetField fields "email",
        name := jsGetField fields "name" } ∧
    ∀ token2, secondSegment token2 = some seg →
      decodeUserFromToken token2 = decodeUserFromToken token := by
  have hp : decodePayload token = some (JsValue.obj fields) := by
    simp [decodePayload, atobArg, hseg, hb64, hjson]
  constructor
  · simp [decodeUserFromToken, decodeUserFromTokenE, hp, jsGet]
  · intro token2 h2
    have hp2 : decodePayload token2 = some (JsValue.obj fields) := by
      simp [decodePayload, atobArg, h2, hb64, hjson]
    simp [decodeUserFromToken, decodeUserFromTokenE, hp, hp2]

/-- C5 witness: a concrete three-segment JWT whose payload carries the three
claims decodes to exactly those claims. -/
theorem decodeUserFromToken_wellFormed_witness :
    decodeUserFromToken "h.eyJzdWIiOiIxIiwiZW1haWwiOiJhQGIiLCJuYW1lIjoiQWwifQ==.s" =
      { id := JsValue.str "1", email := JsValue.str "a@b", name := JsValue.str "Al" } :=
  (decodeUserFromToken_wellFormed
      "h.eyJzdWIiOiIxIiwiZW1haWwiOiJhQGIiLCJuYW1lIjoiQWwifQ==.s"
      "eyJzdWIiOiIxIiwiZW1haWwiOiJhQGIiLCJuYW1lIjoiQWwifQ=="
      "\x7b\"sub\":\"1\",\"email\":\"a@b\",\"name\":\"Al\"\x7d"
      [("sub", JsValue.str "1"), ("email", JsValue.str "a@b"), ("name", JsValue.str "Al")]
      rfl rfl rfl).1

/-- C2: a response whose `data` is absent or falsy only appends to the console
log — user signal, message signal, stored token and route are untouched — and
the HTTP-error handler does likewise. -/
theorem login_missing_token_logs_only (s : AuthState) (res : LoginResponse)
    (h : res.data = none ∨ res.data = some "") :
    loginStep (LoginEvent.response res) s =
      { s with log := s.log ++ ["Login response did not include token."] } ∧
    loginStep LoginEvent.httpError s = { s with log := s.log ++ ["Login failed"] } := by
  constructor
  · rcases h with h | h <;> simp [loginStep, h]
  · rfl

/-- C2 witness at a token-less response and the initial state. -/
theorem login_missing_token_logs_only_witness :
    loginStep (LoginEvent.response { data := none }) initState =
      { initState with log := initState.log ++ ["Login response did not include token."] } ∧
    loginStep LoginEvent.httpError initState =
      { initState with log := initState.log ++ ["Login failed"] } :=
  login_missing_token_logs_only initState { data := none } (Or.inl rfl)

/-- C3: a truthy token in the response is stored verbatim under the `token`
key, the user signal becomes `decodeUserFromToken token` (so `isLoggedIn` is
true) and the router navigates to `/`. -/
theorem login_success_sets_session (s : AuthState) (token : String) (h : token ≠ "") :
    (loginStep (LoginEvent.response { data := some token }) s).storedToken = some token ∧
    (loginStep (LoginEvent.response { data := some token }) s).user =
      some (decodeUserFromToken token) ∧
    isLoggedIn (loginStep (LoginEvent.response { data := some token }) s) = true ∧
    (loginStep (LoginEvent.response { data := some token }) s).route = "/" := by
  refine ⟨?_, ?_, ?_, ?_⟩ <;> simp [loginStep, h, isLoggedIn]

/-- C3 witness at the token `"x"` and the initial state. -/
theorem login_success_sets_session_witness :
    (loginStep (LoginEvent.response { data := some "x" }) initState).storedToken = some "x" ∧
    (loginStep (LoginEvent.response { data := some "x" }) initState).user =
      some (decodeUserFromToken "x") ∧
    isLoggedIn (loginStep (LoginEvent.response { data := some "x" }) initState) = true ∧
    (loginStep (LoginEvent.response { data := some "x" }) initState).route = "/" :=
  login_success_sets_session initState "x" (by decide)

/-- The invariant of §3 of the spec: absence of a stored token implies no
session. -/
def sessionInvariant (s : AuthState) : Prop := s.storedToken = none → s.user = none

/-- C4: absence of a stored token implies no session: it holds after startup
with empty storage, and every operation preserves it. -/
theorem token_absence_means_no_session :
    (∀ route, (startup none route).user = none) ∧
    (∀ ev s, sessionInvariant s → sessionInvariant (loginStep ev s)) ∧
    (∀ s, sessionInvariant (logout s)) ∧
    (∀ s, sessionInvariant s → sessionInvariant (restoreUser s)) := by
  refine ⟨fun _ => rfl, fun ev s h => ?_, fun s => by simp [logout, sessionInvariant],
    fun s h => ?_⟩
  · cases ev with
    | httpError => simpa [loginStep, sessionInvariant] using h
    | response res =>
      cases hres : res.data with
      | none => simpa [loginStep, sessionInvariant, hres] using h
      | some token =>
        by_cases ht : token = ""
        · simpa [loginStep, sessionInvariant, hres, ht] using h
        · simp [loginStep, sessionInvariant, hres, ht]
  · cases hst : s.storedToken with
    | none => simpa [restoreUser, hst] using h
    | some token =>
      by_cases ht : token = "" <;> simp [restoreUser, sessionInvariant, hst, ht]

/-- C4 witness: the invariant instances at the initial state. -/
theorem token_absence_means_no_session_witness :
    (startup none "/").user = none ∧
    sessionInvariant (loginStep LoginEvent.httpError initState) ∧
    sessionInvariant (logout initState) ∧
    sessionInvariant (restoreUser initState) :=
  ⟨token_absence_means_no_session.1 "/",
   token_absence_means_no_session.2.1 LoginEvent.httpError initState (fun _ => rfl),
   token_absence_means_no_session.2.2.1 initState,
   token_absence_means_no_session.2.2.2 initState (fun _ => rfl)⟩

/-- C6: from any state, `logout` nulls both signals, removes the stored token
and navigates to the login route. -/
theorem logout_clears_all (s : AuthState) :
    logout s = { user := none, loginSuccessMessage := none, storedToken := none,
                 route := "/auth/login", log := s.log } := rfl

/-- C7: `login` issues a POST to `/api/auth/login` (against the fixed base
URL) with the credentials passed through as the body, and reads the token it
stores from the response's `data` field. -/
theorem login_wire_contract (credentials : LoginDto) :
    loginRequest credentials =
      { method := HttpMethod.post, url := "https://localhost:7000" ++ "/api/auth/login",
        body := some credentials } ∧
    ∀ (s : AuthState) (res : LoginResponse) (token : String),
      res.data = some token → token ≠ "" →
      (loginStep (LoginEvent.response res) s).storedToken = res.data := by
  refine ⟨rfl, fun s res token hd ht => ?_⟩
  simp [loginStep, hd, ht]

/-- C7 witness at concrete credentials, response and state. -/
theorem login_wire_contract_witness :
    loginRequest { email := "a@b", password := "pw" } =
      { method := HttpMethod.post, url := "https://localhost:7000" ++ "/api/auth/login",
        body := some { email := "a@b", password := "pw" } } ∧
    (loginStep (LoginEvent.response { data := some "x" }) initState).storedToken =
      some "x" :=
  ⟨(login_wire_contract { email := "a@b", password := "pw" }).1,
   (login_wire_contract { email := "a@b", password := "pw" }).2 initState
     { data := some "x" } "x" rfl (by decide)⟩

/-- C8: each `ApiService` verb builds the request by prefixing the fixed base
URL onto the relative url, passing the body through unchanged for post and
put and sending none for get and delete. -/
theorem apiService_verb_wrappers (α : Type) (url : String) (body : α) :
    ApiService.get α url =
      { method := HttpMethod.get, url := "https://localhost:7000" ++ url, body := none } ∧
    ApiService.post α url body =
      { method := HttpMethod.post, url := "https://localhost:7000" ++ url,
        body := some body } ∧
    ApiService.put α url body =
      { method := HttpMethod.put, url := "https://localhost:7000" ++ url,
        body := some body } ∧
    ApiService.delete α url =
      { method := HttpMethod.delete, url := "https://localhost:7000" ++ url, body := none } :=
  ⟨rfl, rfl, rfl, rfl⟩

/-- C9: a truthy but undecodable token still establishes a session: the raw
token is persisted, the user signal holds the fallback user (so `isLoggedIn`
is true), the welcome message is set (with an empty name), the router
navigates to `/`, and the decode failure is only logged. -/
theorem login_malformed_token_still_logs_in (s : AuthState) (token : String)
    (h1 : token ≠ "") (h2 : decodeUserFromTokenE token = none) :
    (loginStep (LoginEvent.response { data := some token }) s).storedToken = some token ∧
    (loginStep (LoginEvent.response { data := some token }) s).user = some fallbackUser ∧
    isLoggedIn (loginStep (LoginEvent.response { data := some token }) s) = true ∧
    (loginStep (LoginEvent.response { data := some token }) s).loginSuccessMessage =
      some "Welcome back, !" ∧
    (loginStep (LoginEvent.response { data := some token }) s).route = "/" ∧
    (loginStep (LoginEvent.response { data := some token }) s).log =
      s.log ++ ["Failed to decode JWT"] := by
  refine ⟨?_, ?_, ?_, ?_, ?_, ?_⟩ <;>
    simp [loginStep, h1, h2, isLoggedIn, decodeUserFromToken, fallbackUser, jsDisplay,
      jsSize, jsDisplayF]

/-- C9 witness at the malformed token `"x"` and the initial state. -/
theorem login_malformed_token_still_logs_in_witness :
    (loginStep (LoginEvent.response { data := some "x" }) initState).storedToken = some "x" ∧
    (loginStep (LoginEvent.response { data := some "x" }) initState).user =
      some fallbackUser ∧
    isLoggedIn (loginStep (LoginEvent.response { data := some "x" }) initState) = true ∧
    (loginStep (LoginEvent.response { data := some "x" }) initState).loginSuccessMessage =
      some "Welcome back, !" ∧
    (loginStep (LoginEvent.response { data := some "x" }) initState).route = "/" ∧
    (loginStep (LoginEvent.response { data := some "x" }) initState).log =
      initState.log ++ ["Failed to decode JWT"] :=
  login_malformed_token_still_logs_in initState "x" (by decide) rfl

/-- C10: `logout` is idempotent: a second application changes nothing. -/
theorem logout_idempotent (s : AuthState) : logout (logout s) = logout s := rfl
